import Mathlib

/-!
Shallow embedding of the Commure-Assignment repository (a natural-language
to SQL agent plus an evaluation harness) and proofs of its specified
properties.

Source files embedded:
  * `src/utils.py` — `judge_sql_similarity` and `evaluate`
  * `src/lang_graph.py` — `AgentState`, `Agent.call_openai`,
    `Agent.exists_action`, `Agent.take_action`, and the compiled two-node
    graph (`llm` ⇄ `action`).

External effects are made explicit:
  * calls to the OpenAI chat-completion API are modelled by a behaviour
    function `String → Except Unit String` (prompt ↦ raised exception or
    first choice's message content);
  * each `sql_helper.get_sql` attempt is modelled by an
    `Except String GenValue` (exception message, or the returned value);
  * `time.sleep` calls are recorded in an explicit trace of `Sleep` events.
-/

namespace SqlEval

/-- A test case dictionary as read by the evaluation loop, with keys
`question` and `actual_query` (src/utils.py lines 133, 136). -/
structure TestCase where
  question : String
  actual_query : String
deriving DecidableEq, Repr

/-- One result dictionary appended by evaluate (src/utils.py lines
170-176 and 181-188).  A key absent from the Python dict (the `error` key
of a success record) is modelled as `none`. -/
structure EvalResult where
  question : String
  expected_sql : String
  generated_sql : Option String
  exact_match : Bool
  llm_judged_equivalent : Option String
  error : Option String
deriving DecidableEq, Repr

/-- The `time.sleep` calls of evaluate, tagged by call site:
`pre` is the `time.sleep(2)` at line 131, `genRetry` the `time.sleep(4)`
at line 145 before the `get_sql` retry, `judgeRetry` the `time.sleep(4)`
at line 166 before the judge retry. -/
inductive Sleep where
  | pre : Sleep
  | genRetry : Sleep
  | judgeRetry : Sleep
deriving DecidableEq, Repr

/-- Duration in seconds of each `time.sleep` call of evaluate. -/
def Sleep.duration : Sleep → Nat
  | .pre => 2
  | .genRetry => 4
  | .judgeRetry => 4

/-- The value returned by one successful get_sql call: a
tuple/list whose elements may each be a string or `None`, or `None`
overall.  (docstring of evaluate, src/utils.py lines 109-111.) -/
def GenValue : Type := Option (List (Option String))

instance : DecidableEq GenValue := by
  unfold GenValue; infer_instance

/-- Python truthiness test `not generated_sql or not generated_sql[0]`
(src/utils.py line 150): the whole value is `None` or an empty list, or
its first element is `None` or the empty string. -/
def noSql : GenValue → Bool
  | none => true
  | some [] => true
  | some (none :: _) => true
  | some (some s :: _) => s == ""

/-- First element of the generated value, read in the branch where
`noSql` is false (src/utils.py lines 153, 162, 167, 173). -/
def firstSql : GenValue → String
  | some (some s :: _) => s
  | _ => ""

/-- Python str.strip with no argument (used at src/utils.py lines 92 and
153): remove whitespace from both ends of the string.  Implemented
structurally over the character list so that concrete instances compute.
The whitespace set is the ASCII one (space, tab, carriage return,
newline), which suffices for every property stated here. -/
def strip (s : String) : String :=
  ⟨((s.data.dropWhile Char.isWhitespace).reverse.dropWhile Char.isWhitespace).reverse⟩

/-- Python str.lower (used at src/utils.py line 153): map every character
to lower case (ASCII range). -/
def lower (s : String) : String :=
  ⟨s.data.map Char.toLower⟩

/-- The prompt constructed by `judge_sql_similarity`
(src/utils.py lines 62-78), with the three inputs embedded verbatim.
The leading indentation of the Python triple-quoted literal is elided. -/
def judgePrompt (nlq sql1 sql2 : String) : String :=
  "You are a SQL expert. A user asked a question, and two SQL queries were generated in response. Judge if both queries are equivalent in meaning and would produce the similar result. If there are extra columns like ID column etc. that is fine. When executed, they should produce a similar result. For instance, if the question is to fetch all doctor names, then getting doctor names with Doctor ID is fine but getting the appointments of doctors is not correct.\n\nRespond ONLY with one of the following:\n- \"Equivalent\"\n- \"Not Equivalent\"\n\nUser Question: " ++ nlq
  ++ "\n\nQuery 1:\n" ++ sql1
  ++ "\n\nQuery 2:\n" ++ sql2
  ++ "\n\nAre the queries equivalent?"

/-- Embedding of judge_sql_similarity (src/utils.py lines 41-98).  The external
chat-completion call is the behaviour `api`, applied to the constructed
prompt.  Everything inside the `try` block — client construction, the API
request, indexing `resp.choices[0]`, and `.strip()` on a possibly-`None`
content — raises into the single `except` handler, which returns
`"Error"`; these failure modes are collectively the `Except.error` case.
On success the first choice's content is returned trimmed of surrounding
whitespace. -/
def judge_sql_similarity (nlq sql1 sql2 : String)
    (api : String → Except Unit String) : String :=
  match api (judgePrompt nlq sql1 sql2) with
  | Except.ok content => strip content
  | Except.error _ => "Error"

/-- The external behaviour relevant to one iteration of the evaluate loop:
the first and (if reached) second `sql_helper.get_sql` attempts, and the
chat-completion behaviours seen by the first and (if reached) second
judge calls. -/
structure CaseBehavior where
  gen1 : Except String GenValue
  gen2 : Except String GenValue
  judgeApi1 : String → Except Unit String
  judgeApi2 : String → Except Unit String

/-- The failure record appended by the outer except handler of evaluate
(src/utils.py lines 181-188): no generated SQL, `exact_match` false, no
judgment, and the stringified exception. -/
def failRecord (c : TestCase) (err : String) : EvalResult :=
  { question := c.question
    expected_sql := c.actual_query
    generated_sql := none
    exact_match := false
    llm_judged_equivalent := none
    error := some err }

/-- The result of the inner try/except around `sql_helper.get_sql`
(src/utils.py lines 140-146): the first attempt's value if it succeeds,
otherwise the second attempt's outcome (whose exception, if any,
propagates to the outer handler). -/
def genResult (b : CaseBehavior) : Except String GenValue :=
  match b.gen1 with
  | Except.ok v => Except.ok v
  | Except.error _ => b.gen2

/-- One iteration of the loop of evaluate over test_cases
(src/utils.py lines 129-188), returning the result record appended for
the case together with the trace of `time.sleep` calls made.  The
`raise ValueError("Agent returned no SQL.")` at line 151 lands in the
outer handler with `str(err) = "Agent returned no SQL."`.  The judge call
at line 162 is the total function `judge_sql_similarity`, so its value is
wrapped in `Except.ok`; the `except` branch at lines 163-167 (sleep 4 and
a second judge call) is retained as written. -/
def runCase (c : TestCase) (b : CaseBehavior) : EvalResult × List Sleep :=
  let genAttempt : Except String GenValue × List Sleep :=
    match b.gen1 with
    | Except.ok v => (Except.ok v, [])
    | Except.error _ => (b.gen2, [Sleep.genRetry])
  let sleeps := Sleep.pre :: genAttempt.2
  match genAttempt.1 with
  | Except.error err => (failRecord c err, sleeps)
  | Except.ok v =>
    if noSql v then
      (failRecord c "Agent returned no SQL.", sleeps)
    else
      let g := firstSql v
      let exact := lower (strip g) == lower (strip c.actual_query)
      let judged : Option String × List Sleep :=
        if exact then (none, [])
        else
          match (Except.ok (judge_sql_similarity c.question c.actual_query g b.judgeApi1) :
              Except String String) with
          | Except.ok j => (some j, [])
          | Except.error _ =>
            (some (judge_sql_similarity c.question c.actual_query g b.judgeApi2),
             [Sleep.judgeRetry])
      ({ question := c.question
         expected_sql := c.actual_query
         generated_sql := some g
         exact_match := exact
         llm_judged_equivalent := judged.1
         error := none },
       sleeps ++ judged.2)

/-- Embedding of evaluate (src/utils.py lines 100-191): iterate over the test cases
in order, appending one result record per case; each case is paired with
the external behaviour its iteration observes. -/
def evaluate (l : List (TestCase × CaseBehavior)) : List EvalResult :=
  l.map (fun p => (runCase p.1 p.2).1)

end SqlEval

namespace LangGraph

/-- A tool call carried by an assistant message: name, argument mapping,
and unique call identifier (spec §3; consumed at src/lang_graph.py lines
174-186 as the name, args and id fields of each call). -/
structure ToolCall where
  name : String
  args : List (String × String)
  id : String
deriving DecidableEq, Repr

/-- A message of the conversation (`AnyMessage`, src/lang_graph.py line
10): system, human, assistant (content plus the list of tool calls it
carries), or a tool-result message (`ToolMessage` with `tool_call_id`,
`name`, `content`; src/lang_graph.py lines 183-187). -/
inductive Msg where
  | system : String → Msg
  | human : String → Msg
  | assistant : String → List ToolCall → Msg
  | tool : (tool_call_id : String) → (nm : String) → (content : String) → Msg
deriving DecidableEq, Repr

/-- A tool capability: a unique name and an invocable accepting an
argument mapping (src/lang_graph.py line 85; spec §3 Tool Registry).
`α` is the tool's arbitrary result type. -/
structure Tool (α : Type) where
  name : String
  invoke : List (String × String) → α

/-- The data stored by the Agent constructor (src/lang_graph.py lines 43-88):
the system prompt, the tool list (from which the name-keyed registry is
built), and the bound model.  `model` is the external collaborator
`invoke(messages) → message`: it always returns an assistant message,
modelled by its content and tool-call list.  `strRepr` is Python's
`str(...)` coercion applied to tool results at line 186. -/
structure AgentCfg (α : Type) where
  system : String
  model : List Msg → String × List ToolCall
  tools : List (Tool α)
  strRepr : α → String

/-- The registry lookup self.tools at a name, on the dict built by the
comprehension over the tool list (src/lang_graph.py lines 85, 177):
a later tool silently overwrites an earlier one with the same name, so
the lookup finds the last matching tool; a missing key is `none`
(Python raises `KeyError`). -/
def toolsDict {α : Type} (ts : List (Tool α)) (n : String) : Option (Tool α) :=
  ts.reverse.find? (fun t => t.name == n)

/-- Tool calls of the most recent message of the state
(src/lang_graph.py lines 142, 168).  At both call sites the last message is the assistant message just
produced by the `llm` node; the cases that would raise in Python (empty
history, or a message class without `tool_calls`) are mapped to `[]`. -/
def last_tool_calls (state : List Msg) : List ToolCall :=
  match state.getLast? with
  | some (Msg.assistant _ tcs) => tcs
  | _ => []

/-- Embedding of Agent.exists_action (src/lang_graph.py lines 124-146):
whether the most recent message carries at least one tool call. -/
def exists_action (state : List Msg) : Bool :=
  decide ((last_tool_calls state).length > 0)

/-- Embedding of Agent.call_openai (src/lang_graph.py lines 90-122): if a system
prompt is configured (Python truthiness: non-empty string), prepend a
system message to the batch sent to the model; return the single new
message as the node delta, which the operator.add annotation appends to
the stored history. -/
def call_openai {α : Type} (ag : AgentCfg α) (state : List Msg) : List Msg :=
  let messages := state
  let messages := if ag.system != "" then Msg.system ag.system :: messages else messages
  let message := ag.model messages
  [Msg.assistant message.1 message.2]

/-- The loop over tool_calls inside Agent.take_action
(src/lang_graph.py lines 174-187): look up the tool of each call by name,
invoke it with the argument mapping of the call, and wrap the stringified
result in a tool-result message carrying the id and tool name of the call.
A missing name is `none` (Python raises `KeyError` out of the loop). -/
def run_tools {α : Type} (ag : AgentCfg α) : List ToolCall → Option (List Msg)
  | [] => some []
  | t :: rest =>
    match toolsDict ag.tools t.name with
    | none => none
    | some tool =>
      match run_tools ag rest with
      | none => none
      | some ms =>
        some (Msg.tool t.id t.name (ag.strRepr (tool.invoke t.args)) :: ms)

/-- Embedding of Agent.take_action (src/lang_graph.py lines 148-192): execute every
tool call of the most recent message, in order, returning the list of
tool-result messages as the node delta (the messages list of results). -/
def take_action {α : Type} (ag : AgentCfg α) (state : List Msg) : Option (List Msg) :=
  run_tools ag (last_tool_calls state)

/-- The run of the compiled graph (src/lang_graph.py lines 62-82): enter at
the `llm` node; route to `action` when `exists_action` holds and back to
`llm` unconditionally after it, else END.  The node deltas are appended
to the state by the `operator.add` annotation of `AgentState.messages`
(line 21).  The source imposes no iteration bound, so the loop is run on
explicit fuel: `none` means the bound was exhausted (or a `KeyError`
escaped `take_action`).  Alongside the final message history the run
counts its model calls and its action phases. -/
def runAgent {α : Type} (ag : AgentCfg α) : Nat → List Msg → Nat → Nat →
    Option (List Msg × Nat × Nat)
  | 0, _, _, _ => none
  | Nat.succ fuel, state, llmCalls, actionPhases =>
    let state' := state ++ call_openai ag state
    if exists_action state' then
      match take_action ag state' with
      | none => none
      | some results =>
        runAgent ag fuel (state' ++ results) (llmCalls + 1) (actionPhases + 1)
    else
      some (state', llmCalls + 1, actionPhases)

end LangGraph

namespace SqlEval

/-- A chat-completion behaviour that always answers with the text
Equivalent, used in concrete instantiations. -/
def okApi : String → Except Unit String := fun _ => Except.ok "Equivalent"

/-- The example test case of spec §8 item 7. -/
def exCase : TestCase := ⟨"List all doctor names", "SELECT name FROM doctors;"⟩

/-- The example generation value of spec §8 item 7: the generated SQL
lacks the trailing semicolon of the reference query. -/
def genNoSemi : GenValue := some [some "select name from doctors"]

/-- Behaviour: generation succeeds at once with `genNoSemi`. -/
def behNoSemi : CaseBehavior :=
  ⟨Except.ok genNoSemi, Except.error "na", okApi, okApi⟩

/-- Behaviour: generation succeeds at once with SQL differing from the
reference only in case and surrounding whitespace. -/
def behCaseWs : CaseBehavior :=
  ⟨Except.ok (some [some "  select name from doctors; "]), Except.error "na",
   okApi, okApi⟩

/-- Behaviour: the first generation attempt raises, the retry succeeds. -/
def behRetryOk : CaseBehavior :=
  ⟨Except.error "boom", Except.ok (some [some "SELECT name FROM doctors;"]),
   okApi, okApi⟩

/-- Behaviour: both generation attempts raise. -/
def behRetryFail : CaseBehavior :=
  ⟨Except.error "boom", Except.error "boom2", okApi, okApi⟩

/-- Behaviour: generation returns a value whose first element is the
empty string. -/
def behEmpty : CaseBehavior :=
  ⟨Except.ok (some [some ""]), Except.error "na", okApi, okApi⟩

/-- The record produced for a case whose generation step returned a
value: a restatement of the success branch of `runCase` in terms of
`genResult`, established by `runCase_eq` below and used to organise the
proofs. -/
def okRecord (c : TestCase) (b : CaseBehavior) (v : GenValue) : EvalResult :=
  if noSql v then failRecord c "Agent returned no SQL."
  else
    { question := c.question
      expected_sql := c.actual_query
      generated_sql := some (firstSql v)
      exact_match := lower (strip (firstSql v)) == lower (strip c.actual_query)
      llm_judged_equivalent :=
        if lower (strip (firstSql v)) == lower (strip c.actual_query) then none
        else some (judge_sql_similarity c.question c.actual_query (firstSql v) b.judgeApi1)
      error := none }

end SqlEval

namespace LangGraph

/-- A concrete tool over `Nat` results, used in concrete instantiations:
it returns the number of supplied arguments, which `strRepr` then
stringifies. -/
def wTool : Tool Nat := ⟨"t", fun args => args.length⟩

/-- A concrete agent configuration holding only `wTool`, whose model
never requests tool calls. -/
def wAgent : AgentCfg Nat :=
  { system := ""
    model := fun _ => ("", [])
    tools := [wTool]
    strRepr := toString }

/-- Two tool calls naming `wTool`, with distinct identifiers and
argument mappings. -/
def wTcs : List ToolCall := [⟨"t", [], "id1"⟩, ⟨"t", [("x", "1")], "id2"⟩]

/-- A state whose most recent message is an assistant message carrying
`wTcs`. -/
def wState : List Msg := [Msg.human "go", Msg.assistant "" wTcs]

/-- A concrete agent configuration with a non-empty system prompt. -/
def sysAgent : AgentCfg Nat :=
  { system := "You are a SQL assistant."
    model := fun _ => ("ok", [])
    tools := []
    strRepr := toString }

/-- A concrete agent whose model requests one call to the tool named t
on its first invocation (history of at most two messages) and stops on
the next one. -/
def cexAgent : AgentCfg String :=
  { system := ""
    model := fun ms =>
      if ms.length ≤ 2 then ("", [⟨"t", [], "call1"⟩]) else ("done", [])
    tools := [⟨"t", fun _ => "res"⟩]
    strRepr := id }

/-- A conversation whose most recent assistant message carries no tool
calls. -/
def cexConv : List Msg := [Msg.human "q", Msg.assistant "prev" []]

/-- The conversation produced by running `cexAgent` on `cexConv` with
fuel 3. -/
def cexFinal : List Msg :=
  [Msg.human "q", Msg.assistant "prev" [],
   Msg.assistant "" [⟨"t", [], "call1"⟩],
   Msg.tool "call1" "t" "res",
   Msg.assistant "done" []]

end LangGraph

namespace SqlEval

/-- Restatement of `runCase` through `genResult` and `okRecord`: the
record only depends on the merged generation outcome, and the sleep
trace only on whether the first attempt raised.  (The judge-retry branch
contributes nothing: its scrutinee is always `Except.ok`.) -/
theorem runCase_eq (c : TestCase) (b : CaseBehavior) :
    runCase c b =
      ((match genResult b with
        | Except.error err => failRecord c err
        | Except.ok v => okRecord c b v),
       (match b.gen1 with
        | Except.ok _ => [Sleep.pre]
        | Except.error _ => [Sleep.pre, Sleep.genRetry])) := by
  obtain ⟨g1, g2, j1, j2⟩ := b
  rcases g1 with e1 | v1
  · rcases g2 with e2 | v2
    · rfl
    · show runCase c ⟨Except.error e1, Except.ok v2, j1, j2⟩ = _
      simp only [runCase, genResult, okRecord]
      split
      · rfl
      · split <;> rfl
  · simp only [runCase, genResult, okRecord]
    split
    · rfl
    · split <;> rfl

/-- The record of a case whose generation step produced a value. -/
theorem runCase_ok (c : TestCase) (b : CaseBehavior) (v : GenValue)
    (hv : genResult b = Except.ok v) :
    (runCase c b).1 = okRecord c b v := by
  rw [runCase_eq, hv]

/-- Claim C1: evaluate returns exactly one result record per input test
case, in input order; a record is the pointwise image of its own case
and behaviour, so one failing case never disturbs the rest, and a
record carries an error exactly when its generation step raised (after
the retry) or produced no SQL. -/
theorem evaluate_one_record_per_case
    (l l1 l2 : List (TestCase × CaseBehavior)) (c : TestCase) (b : CaseBehavior) :
    evaluate l = l.map (fun p => (runCase p.1 p.2).1) ∧
    (evaluate l).length = l.length ∧
    evaluate (l1 ++ (c, b) :: l2) = evaluate l1 ++ (runCase c b).1 :: evaluate l2 ∧
    ((runCase c b).1.error.isSome =
      match genResult b with
      | Except.error _ => true
      | Except.ok v => noSql v) := by
  refine ⟨rfl, by simp [evaluate], by simp [evaluate], ?_⟩
  rcases h : genResult b with e | v <;> rw [runCase_eq, h]
  · simp [failRecord]
  · by_cases hns : noSql v <;> simp [okRecord, hns, failRecord]

/-- Claim C2: for a case whose generation produced SQL, `exact_match` is
true iff generated and expected SQL agree after stripping surrounding
whitespace and case-folding, and the semantic judge is invoked (a
judgment is recorded) iff they do not. -/
theorem exact_match_iff_judge (c : TestCase) (b : CaseBehavior) (v : GenValue)
    (hv : genResult b = Except.ok v) (hns : noSql v = false) :
    ((runCase c b).1.exact_match = true ↔
      lower (strip (firstSql v)) = lower (strip c.actual_query)) ∧
    ((runCase c b).1.llm_judged_equivalent ≠ none ↔
      ¬ lower (strip (firstSql v)) = lower (strip c.actual_query)) := by
  rw [runCase_ok c b v hv]
  constructor
  · simp [okRecord, hns]
  · by_cases h : lower (strip (firstSql v)) = lower (strip c.actual_query) <;>
      simp [okRecord, hns, h]

/-- Witness for C2, at the example of spec §8 item 7 (semicolon
difference: no exact match, judge invoked) and at SQL differing only in
case and surrounding whitespace (exact match, no judge call). -/
theorem exact_match_iff_judge_witness :
    (genResult behNoSemi = Except.ok genNoSemi ∧ noSql genNoSemi = false ∧
      (((runCase exCase behNoSemi).1.exact_match = true ↔
          lower (strip (firstSql genNoSemi)) = lower (strip exCase.actual_query)) ∧
        ((runCase exCase behNoSemi).1.llm_judged_equivalent ≠ none ↔
          ¬ lower (strip (firstSql genNoSemi)) = lower (strip exCase.actual_query)))) ∧
    (runCase exCase behNoSemi).1.exact_match = false ∧
    (runCase exCase behNoSemi).1.llm_judged_equivalent = some "Equivalent" ∧
    (runCase exCase behCaseWs).1.exact_match = true ∧
    (runCase exCase behCaseWs).1.llm_judged_equivalent = none :=
  ⟨⟨rfl, by decide, exact_match_iff_judge exCase behNoSemi genNoSemi rfl (by decide)⟩,
   by decide, by decide, by decide, by decide⟩

/-- Claim C3: when the first generation attempt raises, the case is
retried exactly once after the 4-second delay; a succeeding retry yields
a success record with no error, a failing retry yields the failure
record carrying the second exception, and in both cases the sleep trace
shows the single retry delay. -/
theorem generation_single_retry (c : TestCase) (b : CaseBehavior) (e : String)
    (h1 : b.gen1 = Except.error e) :
    (∀ v, b.gen2 = Except.ok v → noSql v = false →
      (runCase c b).1.error = none ∧
      (runCase c b).1.generated_sql = some (firstSql v) ∧
      (runCase c b).2 = [Sleep.pre, Sleep.genRetry]) ∧
    (∀ e2, b.gen2 = Except.error e2 →
      (runCase c b).1 = failRecord c e2 ∧
      (runCase c b).2 = [Sleep.pre, Sleep.genRetry]) ∧
    Sleep.genRetry.duration = 4 := by
  have hg : genResult b = b.gen2 := by rw [genResult, h1]
  refine ⟨?_, ?_, rfl⟩
  · intro v h2 hns
    have hv : genResult b = Except.ok v := by rw [hg, h2]
    refine ⟨?_, ?_, ?_⟩
    · rw [runCase_ok c b v hv]; simp [okRecord, hns]
    · rw [runCase_ok c b v hv]; simp [okRecord, hns]
    · rw [runCase_eq, h1]
  · intro e2 h2
    have hv : genResult b = Except.error e2 := by rw [hg, h2]
    constructor
    · rw [runCase_eq, hv]
    · rw [runCase_eq, h1]

/-- Witness for C3: a first attempt raising boom followed by a
succeeding retry, and one followed by a second raise boom2. -/
theorem generation_single_retry_witness :
    behRetryOk.gen1 = Except.error "boom" ∧
    (runCase exCase behRetryOk).1.error = none ∧
    (runCase exCase behRetryOk).2 = [Sleep.pre, Sleep.genRetry] ∧
    behRetryFail.gen1 = Except.error "boom" ∧
    (runCase exCase behRetryFail).1 = failRecord exCase "boom2" ∧
    (runCase exCase behRetryFail).2 = [Sleep.pre, Sleep.genRetry] :=
  ⟨rfl,
   ((generation_single_retry exCase behRetryOk "boom" rfl).1
      (some [some "SELECT name FROM doctors;"]) rfl (by decide)).1,
   ((generation_single_retry exCase behRetryOk "boom" rfl).1
      (some [some "SELECT name FROM doctors;"]) rfl (by decide)).2.2,
   rfl,
   ((generation_single_retry exCase behRetryFail "boom" rfl).2.1 "boom2" rfl).1,
   ((generation_single_retry exCase behRetryFail "boom" rfl).2.1 "boom2" rfl).2⟩

/-- Claim C5: a generation value that is absent/empty (or whose first
element is) yields the failure record with error text Agent returned no
SQL., with no SQL, no match, no judgment, and no dependence on the
judge behaviours (no comparison or judge call happens). -/
theorem no_sql_recorded_failure (c : TestCase) (b : CaseBehavior) (v : GenValue)
    (hv : genResult b = Except.ok v) (hns : noSql v = true) :
    (runCase c b).1 = failRecord c "Agent returned no SQL." ∧
    (runCase c b).1.generated_sql = none ∧
    (runCase c b).1.exact_match = false ∧
    (runCase c b).1.llm_judged_equivalent = none ∧
    (runCase c b).1.error = some "Agent returned no SQL." ∧
    (∀ j1 j2, runCase c ⟨b.gen1, b.gen2, j1, j2⟩ = runCase c b) := by
  have hrec : (runCase c b).1 = failRecord c "Agent returned no SQL." := by
    rw [runCase_ok c b v hv]; simp [okRecord, hns]
  refine ⟨hrec, by rw [hrec]; rfl, by rw [hrec]; rfl, by rw [hrec]; rfl,
    by rw [hrec]; rfl, ?_⟩
  intro j1 j2
  have hv' : genResult ⟨b.gen1, b.gen2, j1, j2⟩ = Except.ok v := hv
  rw [runCase_eq, runCase_eq, hv, hv']
  simp [okRecord, hns]

/-- Witness for C5: a generation value whose first element is the empty
string. -/
theorem no_sql_recorded_failure_witness :
    genResult behEmpty = Except.ok (some [some ""]) ∧
    noSql (some [some ""] : GenValue) = true ∧
    (runCase exCase behEmpty).1 = failRecord exCase "Agent returned no SQL." ∧
    runCase exCase ⟨behEmpty.gen1, behEmpty.gen2, okApi, okApi⟩ = runCase exCase behEmpty :=
  ⟨rfl, by decide,
   (no_sql_recorded_failure exCase behEmpty (some [some ""]) rfl (by decide)).1,
   (no_sql_recorded_failure exCase behEmpty (some [some ""]) rfl
      (by decide)).2.2.2.2.2 okApi okApi⟩

/-- Counterexample to C6 as stated: when the external API returns the
content Maybe, judge_sql_similarity returns Maybe, which is none of the
three strings Equivalent, Not Equivalent, Error. -/
theorem judge_output_not_closed :
    judge_sql_similarity "q" "a" "b" (fun _ => Except.ok "Maybe") = "Maybe" ∧
    ¬(judge_sql_similarity "q" "a" "b" (fun _ => Except.ok "Maybe") = "Equivalent" ∨
      judge_sql_similarity "q" "a" "b" (fun _ => Except.ok "Maybe") = "Not Equivalent" ∨
      judge_sql_similarity "q" "a" "b" (fun _ => Except.ok "Maybe") = "Error") := by
  have h : judge_sql_similarity "q" "a" "b" (fun _ => Except.ok "Maybe") = "Maybe" := by
    show strip "Maybe" = "Maybe"
    decide
  refine ⟨h, ?_⟩
  rw [h]
  decide

/-- Claim C6 (amended): judge_sql_similarity never raises to its caller;
an exception during the external call is mapped to Error, and otherwise
the returned value is the first choice content stripped of surrounding
whitespace (which lies in the three-string set only when the model
replies as instructed). -/
theorem judge_never_raises_trimmed (nlq sql1 sql2 : String)
    (api : String → Except Unit String) :
    (∀ e, api (judgePrompt nlq sql1 sql2) = Except.error e →
      judge_sql_similarity nlq sql1 sql2 api = "Error") ∧
    (∀ content, api (judgePrompt nlq sql1 sql2) = Except.ok content →
      judge_sql_similarity nlq sql1 sql2 api = strip content) := by
  constructor <;> intro x hx <;> simp only [judge_sql_similarity, hx]

/-- Witness for amended C6: a raising behaviour maps to Error, a
returning behaviour to its stripped content. -/
theorem judge_never_raises_trimmed_witness :
    judge_sql_similarity "q" "a" "b" (fun _ => Except.error ()) = "Error" ∧
    judge_sql_similarity "q" "a" "b" (fun _ => Except.ok " Equivalent ") =
      strip " Equivalent " :=
  ⟨(judge_never_raises_trimmed "q" "a" "b" (fun _ => Except.error ())).1 () rfl,
   (judge_never_raises_trimmed "q" "a" "b" (fun _ => Except.ok " Equivalent ")).2
     " Equivalent " rfl⟩

/-- Claim C10: the retry branch around the judge call inside evaluate is
unreachable — no case ever records the judge-retry sleep, and the
behaviour of the second (retry) judge call never influences the result,
because judge_sql_similarity catches every exception internally. -/
theorem judge_retry_unreachable (c : TestCase) (b : CaseBehavior) :
    Sleep.judgeRetry ∉ (runCase c b).2 ∧
    (∀ j2, runCase c { b with judgeApi2 := j2 } = runCase c b) := by
  constructor
  · rw [runCase_eq]
    rcases hb : b.gen1 with e | v
    · show Sleep.judgeRetry ∉ [Sleep.pre, Sleep.genRetry]
      decide
    · show Sleep.judgeRetry ∉ [Sleep.pre]
      decide
  · intro j2
    have hg : genResult { b with judgeApi2 := j2 } = genResult b := rfl
    rw [runCase_eq, runCase_eq, hg]
    rcases hg2 : genResult b with e | v <;> rfl

end SqlEval

namespace LangGraph

/-- Tool calls of the most recent message after appending one assistant
message. -/
theorem last_tool_calls_append (s : List Msg) (content : String) (tcs : List ToolCall) :
    last_tool_calls (s ++ [Msg.assistant content tcs]) = tcs := by
  unfold last_tool_calls
  rw [List.getLast?_append_cons]
  rfl

/-- The tool loop on a call list whose every name resolves in the
registry produces exactly the pointwise tool-result messages. -/
theorem run_tools_map {α : Type} (ag : AgentCfg α) (lk : ToolCall → Tool α) :
    ∀ tcs : List ToolCall, (∀ t ∈ tcs, toolsDict ag.tools t.name = some (lk t)) →
      run_tools ag tcs =
        some (tcs.map fun t => Msg.tool t.id t.name (ag.strRepr ((lk t).invoke t.args))) := by
  intro tcs
  induction tcs with
  | nil => intro _; rfl
  | cons t rest ih =>
    intro h
    have ht := h t (List.mem_cons_self t rest)
    have hr := ih (fun x hx => h x (List.mem_cons_of_mem t hx))
    simp only [run_tools, ht, hr, List.map_cons]

/-- Claim C4: when the most recent message carries N tool calls (N at
least 1) whose names all resolve in the registry, take_action returns
exactly N tool-result messages, in call order, the i-th carrying the
i-th identifier, the i-th tool name, and the string coercion of invoking
that tool on the i-th argument mapping. -/
theorem take_action_fanout {α : Type} (ag : AgentCfg α) (state : List Msg)
    (content : String) (tcs : List ToolCall) (lk : ToolCall → Tool α)
    (_hN : 1 ≤ tcs.length)
    (hlast : state.getLast? = some (Msg.assistant content tcs))
    (hlk : ∀ t ∈ tcs, toolsDict ag.tools t.name = some (lk t)) :
    take_action ag state =
      some (tcs.map fun t => Msg.tool t.id t.name (ag.strRepr ((lk t).invoke t.args))) ∧
    (tcs.map fun t => Msg.tool t.id t.name (ag.strRepr ((lk t).invoke t.args))).length
      = tcs.length := by
  have hl : last_tool_calls state = tcs := by
    unfold last_tool_calls
    rw [hlast]
  constructor
  · rw [take_action, hl]
    exact run_tools_map ag lk tcs hlk
  · simp

/-- Witness for C4: two calls to the same registered tool with distinct
identifiers and argument mappings. -/
theorem take_action_fanout_witness :
    1 ≤ wTcs.length ∧
    wState.getLast? = some (Msg.assistant "" wTcs) ∧
    (take_action wAgent wState =
       some (wTcs.map fun t => Msg.tool t.id t.name (wAgent.strRepr (wTool.invoke t.args))) ∧
     (wTcs.map fun t => Msg.tool t.id t.name (wAgent.strRepr (wTool.invoke t.args))).length
       = wTcs.length) ∧
    take_action wAgent wState = some [Msg.tool "id1" "t" "0", Msg.tool "id2" "t" "1"] :=
  ⟨by decide, rfl,
   take_action_fanout wAgent wState "" wTcs (fun _ => wTool) (by decide) rfl
     (by intro t ht; simp only [wTcs, List.mem_cons, List.not_mem_nil, or_false] at ht
         rcases ht with rfl | rfl <;> rfl),
   by decide⟩

/-- Claim C7: conversation state is append-only — whenever a run of the
orchestrator returns, its final message list extends the input list,
whose length never decreased and whose entries keep their positions.
Each intermediate step is itself such a run (the entry state is
universally quantified), so the invariant holds across every llm and
action step. -/
theorem conversation_append_only {α : Type} (ag : AgentCfg α) (fuel : Nat)
    (state : List Msg) (n m : Nat) (final : List Msg) (k k' : Nat)
    (h : runAgent ag fuel state n m = some (final, k, k')) :
    (∃ fresh, final = state ++ fresh) ∧
    state.length ≤ final.length ∧
    (∀ i, i < state.length → final[i]? = state[i]?) := by
  have key : ∃ fresh, final = state ++ fresh := by
    induction fuel generalizing state n m with
    | zero => simp [runAgent] at h
    | succ f ih =>
      simp only [runAgent] at h
      split at h
      · split at h
        · exact absurd h (by simp)
        · next results hta =>
            obtain ⟨fresh, hf⟩ := ih _ _ _ h
            exact ⟨call_openai ag state ++ results ++ fresh, by rw [hf]; simp⟩
      · simp only [Option.some.injEq, Prod.mk.injEq] at h
        exact ⟨call_openai ag state, h.1.symm⟩
  obtain ⟨fresh, rfl⟩ := key
  refine ⟨⟨fresh, rfl⟩, by simp, fun i hi => List.getElem?_append_left hi⟩

/-- Witness for C7: the concrete three-iteration run of cexAgent. -/
theorem conversation_append_only_witness :
    (∃ fresh, cexFinal = cexConv ++ fresh) ∧
    cexConv.length ≤ cexFinal.length ∧
    (∀ i, i < cexConv.length → cexFinal[i]? = cexConv[i]?) :=
  conversation_append_only cexAgent 3 cexConv 0 0 cexFinal 2 1 rfl

/-- Claim C8: with a non-empty system prompt configured, the llm node
invokes the model on the system message prepended to the current
history, while the persisted history only gains the model response:
exactly one message is appended, and the system message never enters the
stored history. -/
theorem system_prompt_not_persisted {α : Type} (ag : AgentCfg α) (state : List Msg)
    (hsys : ag.system ≠ "") :
    call_openai ag state =
      [Msg.assistant (ag.model (Msg.system ag.system :: state)).1
        (ag.model (Msg.system ag.system :: state)).2] ∧
    (state ++ call_openai ag state).length = state.length + 1 ∧
    (Msg.system ag.system ∉ state → Msg.system ag.system ∉ state ++ call_openai ag state) := by
  have hb : (ag.system != "") = true := by
    simp [bne_iff_ne, hsys]
  have hco : call_openai ag state =
      [Msg.assistant (ag.model (Msg.system ag.system :: state)).1
        (ag.model (Msg.system ag.system :: state)).2] := by
    simp only [call_openai, hb, if_true]
  refine ⟨hco, by rw [hco]; simp, ?_⟩
  intro hnot hmem
  rw [hco] at hmem
  rcases List.mem_append.mp hmem with h | h
  · exact hnot h
  · simp at h

/-- Witness for C8: a concrete agent with a non-empty system prompt on a
one-message history. -/
theorem system_prompt_not_persisted_witness :
    sysAgent.system ≠ "" ∧
    (call_openai sysAgent [Msg.human "hi"] =
       [Msg.assistant (sysAgent.model (Msg.system sysAgent.system :: [Msg.human "hi"])).1
         (sysAgent.model (Msg.system sysAgent.system :: [Msg.human "hi"])).2] ∧
     ([Msg.human "hi"] ++ call_openai sysAgent [Msg.human "hi"]).length
       = [Msg.human "hi"].length + 1 ∧
     (Msg.system sysAgent.system ∉ [Msg.human "hi"] →
       Msg.system sysAgent.system ∉ [Msg.human "hi"] ++ call_openai sysAgent [Msg.human "hi"])) :=
  ⟨by decide, system_prompt_not_persisted sysAgent [Msg.human "hi"] (by decide)⟩

/-- Counterexample to C9 as stated: cexConv ends in an assistant message
with no tool calls, yet running the orchestrator on it makes two model
calls, one tool-execution phase, and appends three messages — because
the run's behaviour depends on the fresh model response, not on the
final message of the input conversation. -/
theorem run_terminal_state_counterexample :
    cexConv.getLast? = some (Msg.assistant "prev" []) ∧
    runAgent cexAgent 3 cexConv 0 0 = some (cexFinal, 2, 1) ∧
    cexFinal.length = cexConv.length + 3 := by
  refine ⟨rfl, ?_, rfl⟩
  rfl

/-- Claim C9 (amended): if additionally the model response to the
(system-prepended) input conversation carries no tool calls, invoking
the orchestrator again performs exactly one model call, appends exactly
one message, and no tool-execution phase occurs. -/
theorem run_terminal_one_llm_step {α : Type} (ag : AgentCfg α) (state : List Msg)
    (c0 : String) (fuel : Nat)
    (_hlast : state.getLast? = some (Msg.assistant c0 []))
    (hmodel : (ag.model (if ag.system != "" then Msg.system ag.system :: state
        else state)).2 = []) :
    runAgent ag (fuel + 1) state 0 0 =
      some (state ++
        [Msg.assistant
          (ag.model (if ag.system != "" then Msg.system ag.system :: state
            else state)).1 []],
        1, 0) ∧
    (state ++ call_openai ag state).length = state.length + 1 := by
  have hco : call_openai ag state =
      [Msg.assistant
        (ag.model (if ag.system != "" then Msg.system ag.system :: state
          else state)).1 []] := by
    simp only [call_openai]
    rw [hmodel]
  have hea : exists_action (state ++ call_openai ag state) = false := by
    rw [hco]
    simp [exists_action, last_tool_calls_append]
  constructor
  · simp only [runAgent]
    rw [hea]
    simp only [Bool.false_eq_true, if_false, hco, Nat.zero_add]
  · rw [hco]
    simp

/-- Witness for amended C9: a terminal conversation under an agent whose
model requests no tool calls. -/
theorem run_terminal_one_llm_step_witness :
    cexConv.getLast? = some (Msg.assistant "prev" []) ∧
    (wAgent.model (if wAgent.system != "" then Msg.system wAgent.system :: cexConv
        else cexConv)).2 = [] ∧
    (runAgent wAgent (0 + 1) cexConv 0 0 =
       some (cexConv ++
         [Msg.assistant
           (wAgent.model (if wAgent.system != "" then Msg.system wAgent.system :: cexConv
             else cexConv)).1 []],
         1, 0) ∧
     (cexConv ++ call_openai wAgent cexConv).length = cexConv.length + 1) :=
  ⟨rfl, rfl, run_terminal_one_llm_step wAgent cexConv "prev" 0 rfl rfl⟩

end LangGraph
